import Mathlib

/-!
Verification of the Scalerize Unix-socket client (`src/main.rs`) against its
natural-language specification.

The client is shallowly embedded: bytes are `Nat`, byte buffers are
`List Nat`, the socket is modelled by the list of bytes the peer has made
available plus the byte count one `read` call delivers, and the hardcoded
connect target is modelled by a `String → Option Nat` map from addresses to
connection handles.  Every definition below is translated from the Rust
source; line numbers refer to `src/main.rs`.
-/

namespace Scalerize

/-- Source `const OP_PUT: u8 = 1;` (line 5). -/
def OP_PUT : Nat := 1

/-- Source `const OP_GET: u8 = 2;` (line 6). -/
def OP_GET : Nat := 2

/-- Source `const OP_DELETE: u8 = 3;` (line 7). -/
def OP_DELETE : Nat := 3

/-- Source `const OP_WRITE: u8 = 4;` (line 8). -/
def OP_WRITE : Nat := 4

/-- Source `const STATUS_SUCCESS: u8 = 1;` (line 10). -/
def STATUS_SUCCESS : Nat := 1

/-- Source `const STATUS_ERROR: u8 = 0;` (line 11). -/
def STATUS_ERROR : Nat := 0

/-- Source `const SOCKET_PATH: &str = "/tmp/scalerize";` (line 13). -/
def SOCKET_PATH : String := "/tmp/scalerize"

/-- The fixed read-buffer size `vec![0u8; 4096]` (lines 52 and 165). -/
def BUF_SIZE : Nat := 4096

/-- Rust `u8::to_be_bytes`: a `u8` is its own single big-endian byte (lines 66,
90, 116, 141: `store_number.to_be_bytes()`). -/
def u8_to_be_bytes (b : Nat) : List Nat := [b]

/-- Rust `u32::to_be_bytes`: the four big-endian bytes of a `u32` value
(lines 69, 93, 97, 119: `key_len.to_be_bytes()` / `value_len.to_be_bytes()`). -/
def u32_to_be_bytes (v : Nat) : List Nat :=
  [v / 2 ^ 24 % 2 ^ 8, v / 2 ^ 16 % 2 ^ 8, v / 2 ^ 8 % 2 ^ 8, v % 2 ^ 8]

/-- Rust's `usize as u32` cast: truncation modulo `2^32` (lines 68, 92, 96,
118: `key.len() as u32` / `value.len() as u32`).  The cast never fails or
panics; it silently keeps the low 32 bits. -/
def usize_as_u32 (n : Nat) : Nat := n % 2 ^ 32

/-- The request frame built by `ScalerizeClient::get` (lines 65-70):
`vec![OP_GET]`, then the store byte, the key length as big-endian `u32`,
and the key bytes, appended with `extend_from_slice`. -/
def get_request (store : Nat) (key : List Nat) : List Nat :=
  [OP_GET] ++ u8_to_be_bytes store
    ++ u32_to_be_bytes (usize_as_u32 key.length) ++ key

/-- The request frame built by `ScalerizeClient::put` (lines 89-98):
tag, store byte, key length, key, value length, value. -/
def put_request (store : Nat) (key value : List Nat) : List Nat :=
  [OP_PUT] ++ u8_to_be_bytes store
    ++ u32_to_be_bytes (usize_as_u32 key.length) ++ key
    ++ u32_to_be_bytes (usize_as_u32 value.length) ++ value

/-- The request frame built by `ScalerizeClient::delete` (lines 115-120):
same layout as GET with tag `OP_DELETE`. -/
def delete_request (store : Nat) (key : List Nat) : List Nat :=
  [OP_DELETE] ++ u8_to_be_bytes store
    ++ u32_to_be_bytes (usize_as_u32 key.length) ++ key

/-- The request frame built by `ScalerizeClient::write` (lines 139-141):
tag `OP_WRITE` followed by the store byte fixed at `0`; no length fields. -/
def write_request : List Nat :=
  [OP_WRITE] ++ u8_to_be_bytes 0

/-- Big-endian byte string of `n` in exactly `k` bytes, written from the
spec's words "the key length as a 4-byte big-endian integer"; used as the
independent yardstick the source-side `u32_to_be_bytes` is compared with. -/
def beBytes : Nat → Nat → List Nat
  | 0, _ => []
  | k + 1, n => beBytes k (n / 2 ^ 8) ++ [n % 2 ^ 8]

/-- Source `enum ClientError` (lines 15-23).  `ioError` stands for the `Io` variant
wrapping `std::io::Error` (the wrapped OS error value is not modelled);
the other two variants carry their `String` exactly as in the source. -/
inductive ClientError where
  | ioError : ClientError
  | operationFailed : String → ClientError
  | invalidResponse : String → ClientError
deriving DecidableEq

/-- The replacement character U+FFFD emitted by `String::from_utf8_lossy`
for each maximal invalid subpart. -/
def replacementChar : Char := Char.ofNat 0xFFFD

/-- A UTF-8 continuation byte, `0x80..=0xBF`. -/
def isCont (b : Nat) : Bool := 0x80 ≤ b && b ≤ 0xBF

/-- Valid second byte of a three-byte UTF-8 sequence headed by `b0`
(`0xE0` requires `0xA0..=0xBF`, `0xED` requires `0x80..=0x9F` to exclude
surrogates, the rest accept any continuation byte). -/
def valid3Second (b0 b1 : Nat) : Bool :=
  (b0 = 0xE0 && 0xA0 ≤ b1 && b1 ≤ 0xBF)
    || (b0 = 0xED && 0x80 ≤ b1 && b1 ≤ 0x9F)
    || (b0 ≠ 0xE0 && b0 ≠ 0xED && isCont b1)

/-- Valid second byte of a four-byte UTF-8 sequence headed by `b0`
(`0xF0` requires `0x90..=0xBF` to exclude overlong forms, `0xF4` requires
`0x80..=0x8F` to stay below U+110000, the rest accept any continuation). -/
def valid4Second (b0 b1 : Nat) : Bool :=
  (b0 = 0xF0 && 0x90 ≤ b1 && b1 ≤ 0xBF)
    || (b0 = 0xF4 && 0x80 ≤ b1 && b1 ≤ 0x8F)
    || ((b0 = 0xF1 || b0 = 0xF2 || b0 = 0xF3) && isCont b1)

/-- The character list produced by `String::from_utf8_lossy` (lines 83, 107,
133, 154): UTF-8 decoding with one U+FFFD substituted for each maximal
invalid subpart; decoding resumes at the first offending byte. -/
def utf8LossyChars : List Nat → List Char
  | [] => []
  | b0 :: rest =>
    if b0 < 0x80 then Char.ofNat b0 :: utf8LossyChars rest
    else if 0xC2 ≤ b0 && b0 ≤ 0xDF then
      match rest with
      | [] => [replacementChar]
      | b1 :: rest1 =>
        if isCont b1 then
          Char.ofNat ((b0 - 0xC0) * 0x40 + (b1 - 0x80)) :: utf8LossyChars rest1
        else replacementChar :: utf8LossyChars (b1 :: rest1)
    else if 0xE0 ≤ b0 && b0 ≤ 0xEF then
      match rest with
      | [] => [replacementChar]
      | b1 :: rest1 =>
        if valid3Second b0 b1 then
          match rest1 with
          | [] => [replacementChar]
          | b2 :: rest2 =>
            if isCont b2 then
              Char.ofNat ((b0 - 0xE0) * 0x1000 + (b1 - 0x80) * 0x40 + (b2 - 0x80))
                :: utf8LossyChars rest2
            else replacementChar :: utf8LossyChars (b2 :: rest2)
        else replacementChar :: utf8LossyChars (b1 :: rest1)
    else if 0xF0 ≤ b0 && b0 ≤ 0xF4 then
      match rest with
      | [] => [replacementChar]
      | b1 :: rest1 =>
        if valid4Second b0 b1 then
          match rest1 with
          | [] => [replacementChar]
          | b2 :: rest2 =>
            if isCont b2 then
              match rest2 with
              | [] => [replacementChar]
              | b3 :: rest3 =>
                if isCont b3 then
                  Char.ofNat ((b0 - 0xF0) * 0x40000 + (b1 - 0x80) * 0x1000
                      + (b2 - 0x80) * 0x40 + (b3 - 0x80))
                    :: utf8LossyChars rest3
                else replacementChar :: utf8LossyChars (b3 :: rest3)
            else replacementChar :: utf8LossyChars (b2 :: rest2)
        else replacementChar :: utf8LossyChars (b1 :: rest1)
    else replacementChar :: utf8LossyChars rest

/-- Rust `String::from_utf8_lossy(bytes).into_owned()`. -/
def from_utf8_lossy (bs : List Nat) : String := String.mk (utf8LossyChars bs)

/-- Rust `format!("[{}, {}, ...]", ...)`: the `Debug` rendering of a byte vector,
used inside the `InvalidResponse` message. -/
def fmtByteList (bs : List Nat) : String :=
  "[" ++ String.intercalate ", " (bs.map toString) ++ "]"

/-- The `InvalidResponse` message built at lines 84, 134 and 155:
`format!("Unexpected status: ..., response: ...", status, data)`. -/
def unexpectedStatusMsg (status : Nat) (data : List Nat) : String :=
  "Unexpected status: " ++ toString status ++ ", response: " ++ fmtByteList data

/-- One `self.stream.read(&mut response)` call against the 4096-byte buffer
(lines 52-54).  `stream` is the byte sequence the peer has made available;
`n` is the byte count the OS chooses to deliver for this call.  The bytes
returned are a prefix of the stream, at most `n` and at most `BUF_SIZE`
long (`response.truncate(n)` keeps exactly the bytes read). -/
def stream_read (stream : List Nat) (n : Nat) : List Nat :=
  (stream.take n).take BUF_SIZE

/-- Method `ScalerizeClient::read_full_response` (lines 51-62): one read, then the
empty-buffer check producing `InvalidResponse("Empty response from server")`.
Diagnostic printing (`log_response`) has no effect on the result and is not
modelled. -/
def read_full_response (stream : List Nat) (n : Nat) :
    Except ClientError (List Nat) :=
  if (stream_read stream n).isEmpty then
    Except.error (ClientError.invalidResponse "Empty response from server")
  else Except.ok (stream_read stream n)

/-- The status dispatch of `ScalerizeClient::get` (lines 78-85):
`response[0]` is the status, `response[1..]` the data; status `1` returns
the data, status `0` an `OperationFailed` with the lossily decoded data,
anything else an `InvalidResponse`.  `headI`/`tail` model the indexing,
which `read_full_response` has made safe by guaranteeing non-emptiness. -/
def decode_get (response : List Nat) : Except ClientError (List Nat) :=
  let status := response.headI
  let data := response.tail
  if status = STATUS_SUCCESS then Except.ok data
  else if status = STATUS_ERROR then
    Except.error (ClientError.operationFailed (from_utf8_lossy data))
  else Except.error (ClientError.invalidResponse (unexpectedStatusMsg status data))

/-- The status dispatch of `ScalerizeClient::put` (lines 104-111): only
`response[0] == STATUS_ERROR` is checked; every other status byte falls
through to `Ok(())`. -/
def decode_put (response : List Nat) : Except ClientError Unit :=
  if response.headI = STATUS_ERROR then
    Except.error (ClientError.operationFailed (from_utf8_lossy response.tail))
  else Except.ok ()

/-- The status dispatch of `ScalerizeClient::delete` (lines 128-135):
same three-way match as `get`, returning unit on success. -/
def decode_delete (response : List Nat) : Except ClientError Unit :=
  let status := response.headI
  let data := response.tail
  if status = STATUS_SUCCESS then Except.ok ()
  else if status = STATUS_ERROR then
    Except.error (ClientError.operationFailed (from_utf8_lossy data))
  else Except.error (ClientError.invalidResponse (unexpectedStatusMsg status data))

/-- The status dispatch of `ScalerizeClient::write` (lines 149-156):
same three-way match as `delete`. -/
def decode_write (response : List Nat) : Except ClientError Unit :=
  let status := response.headI
  let data := response.tail
  if status = STATUS_SUCCESS then Except.ok ()
  else if status = STATUS_ERROR then
    Except.error (ClientError.operationFailed (from_utf8_lossy data))
  else Except.error (ClientError.invalidResponse (unexpectedStatusMsg status data))

/-- The response half of `ScalerizeClient::get` (lines 76-85): read one
frame, then dispatch on the status.  The request bytes written beforehand
do not influence the decoding and are covered by `get_request`. -/
def get_op (stream : List Nat) (n : Nat) : Except ClientError (List Nat) :=
  match read_full_response stream n with
  | Except.error e => Except.error e
  | Except.ok response => decode_get response

/-- The response half of `ScalerizeClient::put` (lines 104-111). -/
def put_op (stream : List Nat) (n : Nat) : Except ClientError Unit :=
  match read_full_response stream n with
  | Except.error e => Except.error e
  | Except.ok response => decode_put response

/-- The response half of `ScalerizeClient::delete` (lines 126-135). -/
def delete_op (stream : List Nat) (n : Nat) : Except ClientError Unit :=
  match read_full_response stream n with
  | Except.error e => Except.error e
  | Except.ok response => decode_delete response

/-- The response half of `ScalerizeClient::write` (lines 147-156). -/
def write_op (stream : List Nat) (n : Nat) : Except ClientError Unit :=
  match read_full_response stream n with
  | Except.error e => Except.error e
  | Except.ok response => decode_write response

/-- Source `struct ScalerizeClient { stream: UnixStream }` (lines 25-27).  The
connected stream is modelled as an opaque connection handle. -/
structure ScalerizeClient where
  stream : Nat
deriving DecidableEq

/-- Method `ScalerizeClient::connect` (lines 30-33).  The operating system is
modelled as a map `net` from addresses to connection handles (`none` when
the address is unreachable).  The source calls
`UnixStream::connect(SOCKET_PATH)?`: the address consulted is always the
constant `SOCKET_PATH`; the function has no address parameter, and an
unreachable address surfaces as the `Io` error through `?`. -/
def connect (net : String → Option Nat) : Except ClientError ScalerizeClient :=
  match net SOCKET_PATH with
  | some s => Except.ok { stream := s }
  | none => Except.error ClientError.ioError

/-- Outcome of one non-blocking `read` inside `check_additional_messages`
(lines 166-183): `Ok(n)` with `n > 0` carries the bytes, `Ok(0)` is
end-of-data, `WouldBlock` is an empty socket buffer, and `readErr` is any
other I/O error. -/
inductive ReadEvent where
  | moreData : List Nat → ReadEvent
  | endOfData : ReadEvent
  | wouldBlock : ReadEvent
  | readErr : ReadEvent
deriving DecidableEq

/-- The blocking/non-blocking flag of the client's socket, toggled only by
`set_nonblocking` calls. -/
structure SocketMode where
  nonblocking : Bool
deriving DecidableEq

/-- The loop of `check_additional_messages` (lines 164-184): each
`Ok(n), n > 0` arm records the bytes and continues; the `Ok(0)`,
`WouldBlock` and other-error arms all `break`.  The loop performs no
`set_nonblocking` call.  An exhausted event list means no further read
outcome occurs. -/
def drain_messages : List ReadEvent → List (List Nat)
  | [] => []
  | ReadEvent.moreData bs :: rest => bs :: drain_messages rest
  | ReadEvent.endOfData :: _ => []
  | ReadEvent.wouldBlock :: _ => []
  | ReadEvent.readErr :: _ => []

/-- Method `ScalerizeClient::check_additional_messages` (lines 159-188):
`set_nonblocking(true)`, the drain loop, then unconditionally
`set_nonblocking(false)` — the loop only ever exits by `break`, and every
`break` falls through to the final mode restore.  Returns the final socket
mode together with the drained messages. -/
def check_additional_messages (mode : SocketMode) (events : List ReadEvent) :
    SocketMode × List (List Nat) :=
  let modeOn : SocketMode := { mode with nonblocking := true }
  let msgs := drain_messages events
  let modeOff : SocketMode := { modeOn with nonblocking := false }
  (modeOff, msgs)

/-- Method `ScalerizeClient::get` (lines 64-86) performs no `set_nonblocking`
call: the socket mode is untouched. -/
def get_mode_effect (m : SocketMode) : SocketMode := m

/-- Method `ScalerizeClient::put` (lines 88-112) performs no `set_nonblocking`
call: the socket mode is untouched. -/
def put_mode_effect (m : SocketMode) : SocketMode := m

/-- Method `ScalerizeClient::delete` (lines 114-136) performs no `set_nonblocking`
call: the socket mode is untouched. -/
def delete_mode_effect (m : SocketMode) : SocketMode := m

/-- Method `ScalerizeClient::write` (lines 138-157) performs no `set_nonblocking`
call: the socket mode is untouched. -/
def write_mode_effect (m : SocketMode) : SocketMode := m

/-- Method `ScalerizeClient::read_full_response` (lines 51-62) performs no
`set_nonblocking` call: the socket mode is untouched. -/
def read_full_response_mode_effect (m : SocketMode) : SocketMode := m

/-- A key of length `2^32`, exceeding the 32-bit length contract; used to
exhibit the behaviour of the `usize as u32` cast at the boundary. -/
def bigKey : List Nat := List.replicate (2 ^ 32) 0

/-- A model network on which the path "/tmp/other" is reachable (handle 7)
and every other address, `SOCKET_PATH` included, is unreachable. -/
def netOnlyOther : String → Option Nat :=
  fun a => if a = "/tmp/other" then some 7 else none

/-- A model network on which no address is reachable. -/
def netUnreachable : String → Option Nat := fun _ => none

end Scalerize

namespace Scalerize

/-- Lemma: `u32_to_be_bytes` agrees with the generic big-endian expansion in four
bytes, for every value (both truncate the bits above the 32nd). -/
theorem u32_to_be_bytes_eq_beBytes (v : Nat) : u32_to_be_bytes v = beBytes 4 v := by
  show _ = beBytes (3 + 1) v
  rw [beBytes, beBytes, beBytes, beBytes, beBytes]
  simp [u32_to_be_bytes, Nat.div_div_eq_div_mul]

/-- Shared layout lemma for PUT frames under the 32-bit length contract. -/
theorem put_request_spec (store : Nat) (key value : List Nat)
    (hk : key.length < 2 ^ 32) (hv : value.length < 2 ^ 32) :
    put_request store key value =
      [OP_PUT, store] ++ beBytes 4 key.length ++ key
        ++ beBytes 4 value.length ++ value := by
  unfold put_request u8_to_be_bytes usize_as_u32
  rw [Nat.mod_eq_of_lt hk, Nat.mod_eq_of_lt hv, u32_to_be_bytes_eq_beBytes,
    u32_to_be_bytes_eq_beBytes]
  simp

/-- Shared layout lemma for GET frames under the 32-bit length contract. -/
theorem get_request_spec (store : Nat) (key : List Nat)
    (hk : key.length < 2 ^ 32) :
    get_request store key = [OP_GET, store] ++ beBytes 4 key.length ++ key := by
  unfold get_request u8_to_be_bytes usize_as_u32
  rw [Nat.mod_eq_of_lt hk, u32_to_be_bytes_eq_beBytes]
  simp

/-- Shared layout lemma for DELETE frames under the 32-bit length contract. -/
theorem delete_request_spec (store : Nat) (key : List Nat)
    (hk : key.length < 2 ^ 32) :
    delete_request store key = [OP_DELETE, store] ++ beBytes 4 key.length ++ key := by
  unfold delete_request u8_to_be_bytes usize_as_u32
  rw [Nat.mod_eq_of_lt hk, u32_to_be_bytes_eq_beBytes]
  simp

/-- C1: for every store id, key and value (empty ones included, lengths
within the spec's 32-bit contract), the encoded PUT request is exactly the
tag `0x01`, the store byte, the key length as a 4-byte big-endian integer,
the key bytes, the value length as a 4-byte big-endian integer, and the
value bytes — nothing else. -/
theorem put_request_layout (store : Nat) (key value : List Nat)
    (hk : key.length < 2 ^ 32) (hv : value.length < 2 ^ 32) :
    put_request store key value =
      [OP_PUT, store] ++ beBytes 4 key.length ++ key
        ++ beBytes 4 value.length ++ value :=
  put_request_spec store key value hk hv

/-- Witness for C1 at store 2, key `[9]`, empty value: the frame ends with
the four zero bytes of `valueLen = 0` and no trailing bytes. -/
theorem put_request_layout_witness :
    put_request 2 [9] [] = [1, 2, 0, 0, 0, 1, 9, 0, 0, 0, 0] := by
  have h := put_request_layout 2 [9] [] (by norm_num) (by norm_num)
  rw [h]
  decide

/-- C2: for every response buffer read by `get` (such buffers are
non-empty): status byte `1` returns `Ok` with exactly the bytes after the
first, verbatim; status byte `0` returns `OperationFailed` carrying those
bytes decoded lossily as text; any other status byte returns
`InvalidResponse`. -/
theorem get_status_mapping (response : List Nat) (h : response ≠ []) :
    (response.headI = STATUS_SUCCESS →
      decode_get response = Except.ok response.tail) ∧
    (response.headI = STATUS_ERROR →
      decode_get response =
        Except.error (ClientError.operationFailed (from_utf8_lossy response.tail))) ∧
    (response.headI ≠ STATUS_SUCCESS → response.headI ≠ STATUS_ERROR →
      decode_get response =
        Except.error (ClientError.invalidResponse
          (unexpectedStatusMsg response.headI response.tail))) := by
  refine ⟨fun h1 => ?_, fun h0 => ?_, fun h1 h0 => ?_⟩
  · simp [decode_get, h1]
  · simp [decode_get, h0, STATUS_SUCCESS, STATUS_ERROR]
  · simp [decode_get, h1, h0]

/-- Witness for C2 at the success response `[1, 65, 66]`. -/
theorem get_status_mapping_witness :
    decode_get [1, 65, 66] = Except.ok [65, 66] := by
  have h := get_status_mapping [1, 65, 66] (by simp)
  exact h.1 rfl

/-- Counterexample to C3 as stated: on the response `[7, 66]` — status
byte `7`, neither `0` nor `1` — `put` succeeds with `Ok(())` instead of
returning a protocol error. -/
theorem put_ok_on_unknown_status :
    put_op [7, 66] 4096 = Except.ok () ∧
    (7 : Nat) ≠ STATUS_SUCCESS ∧ (7 : Nat) ≠ STATUS_ERROR := by
  refine ⟨?_, by decide, by decide⟩
  rfl

/-- C3 (amended): for every response whose status byte is neither `0` nor
`1`, `get`, `delete` and `write` yield `InvalidResponse`, never success;
`put`, however, checks only for the error status and returns `Ok(())` for
every other status byte, recognized or not. -/
theorem unknown_status_rejected_except_put (response : List Nat)
    (h1 : response.headI ≠ STATUS_SUCCESS) (h0 : response.headI ≠ STATUS_ERROR) :
    decode_get response =
      Except.error (ClientError.invalidResponse
        (unexpectedStatusMsg response.headI response.tail)) ∧
    decode_delete response =
      Except.error (ClientError.invalidResponse
        (unexpectedStatusMsg response.headI response.tail)) ∧
    decode_write response =
      Except.error (ClientError.invalidResponse
        (unexpectedStatusMsg response.headI response.tail)) ∧
    decode_put response = Except.ok () := by
  refine ⟨?_, ?_, ?_, ?_⟩ <;>
    simp [decode_get, decode_delete, decode_write, decode_put, h1, h0]

/-- Witness for the amended C3 at the response `[9]`. -/
theorem unknown_status_rejected_except_put_witness :
    decode_put [9] = Except.ok () := by
  have h := unknown_status_rejected_except_put [9] (by decide) (by decide)
  exact h.2.2.2

/-- C4: whenever the single read yields a zero-length buffer, every
operation returns the empty-response protocol error
`InvalidResponse("Empty response from server")` — the read path fails
before any status inspection; all functions involved are total, so no
panic is possible. -/
theorem empty_read_protocol_error (stream : List Nat) (n : Nat)
    (h : stream_read stream n = []) :
    get_op stream n =
      Except.error (ClientError.invalidResponse "Empty response from server") ∧
    put_op stream n =
      Except.error (ClientError.invalidResponse "Empty response from server") ∧
    delete_op stream n =
      Except.error (ClientError.invalidResponse "Empty response from server") ∧
    write_op stream n =
      Except.error (ClientError.invalidResponse "Empty response from server") := by
  have he : (stream_read stream n).isEmpty = true := by simp [h]
  refine ⟨?_, ?_, ?_, ?_⟩ <;>
    simp [get_op, put_op, delete_op, write_op, read_full_response, he]

/-- Witness for C4 at an empty stream. -/
theorem empty_read_protocol_error_witness :
    get_op [] 0 =
      Except.error (ClientError.invalidResponse "Empty response from server") := by
  have h := empty_read_protocol_error [] 0 rfl
  exact h.1

/-- C5: for every store id and key (length within the 32-bit contract),
the encoded GET request is exactly tag `0x02`, the store byte, the key
length as 4-byte big-endian, and the key; DELETE is the identical layout
with tag `0x03`; the exact equalities show neither emits a value-length
field. -/
theorem get_delete_request_layout (store : Nat) (key : List Nat)
    (hk : key.length < 2 ^ 32) :
    get_request store key = [OP_GET, store] ++ beBytes 4 key.length ++ key ∧
    delete_request store key = [OP_DELETE, store] ++ beBytes 4 key.length ++ key :=
  ⟨get_request_spec store key hk, delete_request_spec store key hk⟩

/-- Witness for C5 at store 5, key `[9]`. -/
theorem get_delete_request_layout_witness :
    get_request 5 [9] = [2, 5, 0, 0, 0, 1, 9] ∧
    delete_request 5 [9] = [3, 5, 0, 0, 0, 1, 9] := by
  have h := get_delete_request_layout 5 [9] (by norm_num)
  refine ⟨?_, ?_⟩
  · rw [h.1]; decide
  · rw [h.2]; decide

/-- C6: the WRITE request is exactly the two bytes `0x04 0x00` — operation
tag then store id fixed at 0, no length-prefixed fields; `write_request`
is a constant, independent of any prior operations on the session. -/
theorem write_request_is_04_00 : write_request = [0x04, 0x00] := by decide

/-- Lemma: the GET frame for any key carries the length field truncated
modulo `2^32`, proved for a symbolic key so that instantiating it never
asks the kernel to evaluate a concrete key. -/
theorem get_request_truncated (store : Nat) (key : List Nat) :
    get_request store key =
      [OP_GET, store] ++ u32_to_be_bytes (key.length % 2 ^ 32) ++ key := by
  simp [get_request, u8_to_be_bytes, usize_as_u32]

/-- Lemma: `bigKey` has length `2^32`, one past the 32-bit contract. -/
theorem bigKey_length : bigKey.length = 2 ^ 32 := by
  show (List.replicate (2 ^ 32) (0 : Nat)).length = 2 ^ 32
  exact List.length_replicate _ _

/-- Counterexample to C7 as stated: on a key of length `2^32` the encoder
does not fail or assert; it silently emits the truncated length field
`[0, 0, 0, 0]` (the low 32 bits of `2^32`) and the frame is produced. -/
theorem length_field_silently_truncated :
    bigKey.length = 2 ^ 32 ∧
    get_request 2 bigKey = [OP_GET, 2, 0, 0, 0, 0] ++ bigKey := by
  refine ⟨bigKey_length, ?_⟩
  rw [get_request_truncated, bigKey_length]
  norm_num [u32_to_be_bytes]

/-- C7 (amended): under the precondition that key and value each have
length at most `2^32 - 1`, the 4-byte big-endian length fields emitted by
put, get and delete equal the actual slice lengths; a longer slice is not
a fatal assertion — the `usize as u32` cast silently reduces the encoded
length modulo `2^32`. -/
theorem length_fields_within_u32 (store : Nat) (key value : List Nat) :
    (key.length < 2 ^ 32 → value.length < 2 ^ 32 →
      put_request store key value =
        [OP_PUT, store] ++ beBytes 4 key.length ++ key
          ++ beBytes 4 value.length ++ value ∧
      get_request store key = [OP_GET, store] ++ beBytes 4 key.length ++ key ∧
      delete_request store key =
        [OP_DELETE, store] ++ beBytes 4 key.length ++ key) ∧
    get_request store key =
      [OP_GET, store] ++ beBytes 4 (key.length % 2 ^ 32) ++ key := by
  constructor
  · intro hk hv
    exact ⟨put_request_spec store key value hk hv, get_request_spec store key hk,
      delete_request_spec store key hk⟩
  · unfold get_request u8_to_be_bytes usize_as_u32
    rw [u32_to_be_bytes_eq_beBytes]
    simp

/-- Witness for the amended C7 at store 1, key `[3]`, value `[4, 5]`. -/
theorem length_fields_within_u32_witness :
    put_request 1 [3] [4, 5] = [1, 1, 0, 0, 0, 1, 3, 0, 0, 0, 2, 4, 5] := by
  have h := (length_fields_within_u32 1 [3] [4, 5]).1 (by norm_num) (by norm_num)
  rw [h.1]
  decide

/-- Counterexample to C8 as stated: the caller supplies no address —
`connect` consults only the hardcoded `SOCKET_PATH`.  On a network where
the address "/tmp/other" is reachable but `SOCKET_PATH` is not, `connect`
fails: no caller can direct it at the reachable address. -/
theorem connect_ignores_caller_address :
    netOnlyOther "/tmp/other" = some 7 ∧
    netOnlyOther SOCKET_PATH = none ∧
    connect netOnlyOther = Except.error ClientError.ioError := by
  refine ⟨by decide, by decide, ?_⟩
  rfl

/-- C8 (amended): `connect()` opens a transport connection to the fixed
constant address `SOCKET_PATH` ("/tmp/scalerize"), which is hardcoded, not
caller-supplied; when that address is unreachable it returns the `Io`
error (no panic — the function is total); its result depends on the
network only through the one fixed address. -/
theorem connect_uses_fixed_address (net : String → Option Nat) :
    (net SOCKET_PATH = none → connect net = Except.error ClientError.ioError) ∧
    (∀ c : Nat, net SOCKET_PATH = some c →
      connect net = Except.ok { stream := c }) ∧
    (∀ net' : String → Option Nat, net SOCKET_PATH = net' SOCKET_PATH →
      connect net = connect net') := by
  refine ⟨fun h => ?_, fun c h => ?_, fun net' h => ?_⟩ <;> simp [connect, h]

/-- Witness for the amended C8 on the fully unreachable network. -/
theorem connect_uses_fixed_address_witness :
    connect netUnreachable = Except.error ClientError.ioError := by
  have h := (connect_uses_fixed_address netUnreachable).1 rfl
  exact h

/-- C9: `check_additional_messages` ends with the socket back in blocking
mode for every initial mode and every sequence of read outcomes — normal
end-of-data, would-block, or any other I/O error — and it is the only
place that switches the mode: the other operations leave the mode
untouched. -/
theorem drain_restores_blocking_mode (m : SocketMode) (events : List ReadEvent) :
    (check_additional_messages m events).1.nonblocking = false ∧
    get_mode_effect m = m ∧
    put_mode_effect m = m ∧
    delete_mode_effect m = m ∧
    write_mode_effect m = m ∧
    read_full_response_mode_effect m = m :=
  ⟨rfl, rfl, rfl, rfl, rfl, rfl⟩

/-- C10: a successful `read_full_response` returns a buffer of length at
least 1 (so `response[0]` and `response[1..]` are in bounds in every
operation) and at most `BUF_SIZE` (the 4096-byte read buffer). -/
theorem read_full_response_length_bounds (stream : List Nat) (n : Nat)
    (resp : List Nat) (h : read_full_response stream n = Except.ok resp) :
    resp ≠ [] ∧ 1 ≤ resp.length ∧ resp.length ≤ BUF_SIZE := by
  unfold read_full_response at h
  by_cases he : (stream_read stream n).isEmpty
  · simp [he] at h
  · simp [he] at h
    subst h
    have hne : stream_read stream n ≠ [] := by simpa using he
    refine ⟨hne, List.length_pos.mpr hne, ?_⟩
    rw [stream_read, List.length_take]
    exact Nat.min_le_left _ _

/-- Witness for C10 at the one-byte stream `[1]`. -/
theorem read_full_response_length_bounds_witness :
    ([1] : List Nat) ≠ [] ∧ 1 ≤ ([1] : List Nat).length ∧
      ([1] : List Nat).length ≤ BUF_SIZE := by
  have h := read_full_response_length_bounds [1] 1 [1] rfl
  exact h

end Scalerize
